import Mathlib

/-!
Shallow embedding of the PPO agent in `src/skrl/agents/ppo/ppo.py`.

Tensors are modelled as lists of rationals (`List ℚ`): the agent treats
tensors elementwise, so a batch is a list of scalar entries.  The policy
and value networks, which the agent receives as constructor arguments
(`networks: Dict[str, Model]`), are modelled as abstract functions.
`torch.exp` is transcendental, so the embedding is parametric in an
exponential-like function `fexp : ℚ → ℚ`; every property proved below
holds for the actual exponential as a special case.
-/

namespace Skrl

/-- Values stored in the dynamic configuration dictionary (Python ints and
floats become `num`, booleans `boolean`, `None` becomes `noneV`). -/
inductive CfgVal where
  | num (q : ℚ)
  | boolean (b : Bool)
  | noneV
deriving DecidableEq, Repr

/-- A Python `dict` with string keys, as an ordered association list. -/
abbrev Dict := List (String × CfgVal)

/-- Assignment `d[k] = v` of a Python dict: replace the value in place if
the key is present, append otherwise. -/
def dictSet (d : Dict) (k : String) (v : CfgVal) : Dict :=
  match d with
  | [] => [(k, v)]
  | (k0, v0) :: rest => if k0 = k then (k0, v) :: rest else (k0, v0) :: dictSet rest k v

/-- Python `d.update(overrides)`: assign every key of `overrides` into `d`. -/
def dictUpdate (d : Dict) (overrides : Dict) : Dict :=
  overrides.foldl (fun acc kv => dictSet acc kv.fst kv.snd) d

/-- Python `d[k]` lookup (as an `Option`; `none` models a `KeyError`). -/
def dictGet (d : Dict) (k : String) : Option CfgVal :=
  match d with
  | [] => none
  | (k0, v0) :: rest => if k0 = k then some v0 else dictGet rest k

/-- Generic association-list lookup, used for the `networks` mapping. -/
def lookupA {α : Type} (d : List (String × α)) (k : String) : Option α :=
  match d with
  | [] => none
  | (k0, v0) :: rest => if k0 = k then some v0 else lookupA rest k

/-- The module-level dictionary `PPO_DEFAULT_CONFIG` (ppo.py lines 14-37). -/
def PPO_DEFAULT_CONFIG : Dict :=
  [("rollouts", CfgVal.num 16),
   ("learning_epochs", CfgVal.num 8),
   ("discount_factor", CfgVal.num (99/100)),
   ("lambda", CfgVal.num (99/100)),
   ("policy_learning_rate", CfgVal.num (1/1000)),
   ("value_learning_rate", CfgVal.num (1/1000)),
   ("random_timesteps", CfgVal.num 1000),
   ("learning_starts", CfgVal.num 1000),
   ("ratio_clip", CfgVal.num (1/5)),
   ("value_clip", CfgVal.num (1/5)),
   ("clip_predicted_values", CfgVal.boolean false),
   ("entropy_loss_scale", CfgVal.num 0),
   ("value_loss_scale", CfgVal.num 1),
   ("kl_threshold", CfgVal.num 0),
   ("device", CfgVal.noneV)]

/-- Numeric read of a configuration entry (the runtime values read by
`__init__` are numbers; a missing or non-numeric entry defaults to 0 just
to make the function total — the claims never exercise that branch). -/
def cfgNum (d : Dict) (k : String) : ℚ :=
  match dictGet d k with
  | some (CfgVal.num q) => q
  | _ => 0

/-- Natural-number read of a configuration entry (`rollouts`,
`learning_epochs` are Python ints). -/
def cfgNat (d : Dict) (k : String) : ℕ :=
  (cfgNum d k).floor.toNat

/-- Python truthiness of a configuration entry, as used by
`if self._clip_predicted_values:`. -/
def cfgBool (d : Dict) (k : String) : Bool :=
  match dictGet d k with
  | some (CfgVal.boolean b) => b
  | some (CfgVal.num q) => decide (q ≠ 0)
  | _ => false

/-- A model (network) as the agent sees it: `act states inference` returns
the triple (actions, log_prob, actions_mean) and `random_act` returns
unconstrained exploration actions.  These are the external capabilities of
`skrl.models.torch.Model` used by ppo.py. -/
structure NetModel where
  act : List ℚ → Bool → List ℚ × List ℚ × List ℚ
  random_act : List ℚ → List ℚ

/-- The scalar hyperparameters extracted from the configuration dictionary
in `__init__` (ppo.py lines 60-80). -/
structure PPOHyper where
  learning_epochs : ℕ
  rollouts : ℕ
  ratio_clip : ℚ
  value_clip : ℚ
  clip_predicted_values : Bool
  value_loss_scale : ℚ
  entropy_loss_scale : ℚ
  kl_threshold : ℚ
  random_timesteps : ℚ
  learning_starts : ℚ
  discount_factor : ℚ
  lambda_coefficient : ℚ
  policy_learning_rate : ℚ
  value_learning_rate : ℚ

/-- Extraction of the hyperparameters from a configuration dictionary,
mirroring ppo.py lines 60-80. -/
def hyperOfCfg (d : Dict) : PPOHyper :=
  { learning_epochs := cfgNat d "learning_epochs"
    rollouts := cfgNat d "rollouts"
    ratio_clip := cfgNum d "ratio_clip"
    value_clip := cfgNum d "value_clip"
    clip_predicted_values := cfgBool d "clip_predicted_values"
    value_loss_scale := cfgNum d "value_loss_scale"
    entropy_loss_scale := cfgNum d "entropy_loss_scale"
    kl_threshold := cfgNum d "kl_threshold"
    random_timesteps := cfgNum d "random_timesteps"
    learning_starts := cfgNum d "learning_starts"
    discount_factor := cfgNum d "discount_factor"
    lambda_coefficient := cfgNum d "lambda"
    policy_learning_rate := cfgNum d "policy_learning_rate"
    value_learning_rate := cfgNum d "value_learning_rate" }

/-- Modelled from the spec: one synchronized row-batch appended to the
rollout buffer by `Memory.add_samples` (the `Memory` class itself is not in
the sources; the spec lists the appended fields
`states, actions, rewards, dones, log_prob, values`).  `log_prob` is an
`Option` because the cached `self._current_log_prob` is initialized to
`None`. -/
structure MemRow where
  states : List ℚ
  actions : List ℚ
  rewards : List ℚ
  dones : List Bool
  log_prob : Option (List ℚ)
  values : List ℚ

/-- The mutable state of a constructed PPO agent: the configuration
dictionary it holds (aliasing the module-level default), the extracted
hyperparameters, the two networks, the rollout counter (`self._rollout`),
the two scratch variables of ppo.py lines 99-100, and the rollout buffer
contents (`none` models `self.memory is None`). -/
structure PPOAgent where
  cfg : Dict
  hyper : PPOHyper
  policy : NetModel
  value : NetModel
  rollout : ℕ
  current_log_prob : Option (List ℚ)
  current_next_states : Option (List ℚ)
  memory : Option (List MemRow)

/-- Observable construction effects, used to state that the missing-key
check fires before any optimizer or buffer tensor is created. -/
inductive InitEffect where
  | createdOptimizer (name : String)
  | createdTensor (name : String)
deriving DecidableEq, Repr

/-- The tensors created in the memory by `__init__` (ppo.py lines 87-94). -/
def tensorNames : List String :=
  ["states", "actions", "rewards", "dones", "log_prob", "values", "returns", "advantages"]

/-- Construction of a PPO agent (ppo.py `__init__`).  The process state is
the module-level `PPO_DEFAULT_CONFIG` dictionary, mutated in place by
`PPO_DEFAULT_CONFIG.update(cfg)` (line 47); the agent keeps the mutated
dictionary as its `cfg`.  Missing `"policy"` or `"value"` keys raise a
`KeyError` (lines 51-54) before the optimizers (lines 83-84) and the memory
tensors (lines 87-94) are created, which the effect trace records. -/
structure ProcState where
  ppo_default_config : Dict

/-- The `KeyError` message of ppo.py line 52. -/
def policyKeyError : String :=
  "KeyError: Policy network not found in networks. Use policy key to define the policy network"

/-- The `KeyError` message of ppo.py line 54. -/
def valueKeyError : String :=
  "KeyError: Value-network not found in networks. Use value key to define the Value-network"

/-- The agent state right after a successful `__init__` with effective
configuration dictionary `g` (ppo.py lines 56-100). -/
def mkAgent (g : Dict) (pol vl : NetModel) : PPOAgent :=
  { cfg := g
    hyper := hyperOfCfg g
    policy := pol
    value := vl
    rollout := 0
    current_log_prob := none
    current_next_states := none
    memory := some [] }

/-- The construction effects of a successful `__init__`: the two Adam
optimizers (lines 83-84), then the eight memory tensors (lines 87-94). -/
def initEffects : List InitEffect :=
  [InitEffect.createdOptimizer "policy", InitEffect.createdOptimizer "value"]
    ++ tensorNames.map InitEffect.createdTensor

def PPO.init (p : ProcState) (networks : List (String × NetModel)) (cfg : Dict) :
    ProcState × List InitEffect × Except String PPOAgent :=
  let g := dictUpdate p.ppo_default_config cfg
  let p2 : ProcState := ⟨g⟩
  match lookupA networks "policy" with
  | none => (p2, [], Except.error policyKeyError)
  | some policy =>
    match lookupA networks "value" with
    | none => (p2, [], Except.error valueKeyError)
    | some value => (p2, initEffects, Except.ok (mkAgent g policy value))

/-- Result of `PPO.act`: the random-exploration path returns a single
actions tensor, the stochastic path returns the triple
(actions, log_prob, actions_mean). -/
inductive ActOut where
  | random (actions : List ℚ)
  | stochastic (actions log_prob actions_mean : List ℚ)

/-- ppo.py `act` (lines 102-131).  A `none` timestep models Python `None`:
the comparison `timestep < self._random_timesteps` then raises a
`TypeError`, modelled as an error result.  On the random-exploration path
the agent state is untouched (in particular `_current_log_prob` is not
written); on the stochastic path the returned log-probability is cached. -/
def PPO.act (a : PPOAgent) (states : List ℚ) (inference : Bool) (timestep : Option ℤ) :
    Except String (ActOut × PPOAgent) :=
  match timestep with
  | none => Except.error "TypeError: comparison of NoneType timestep with int"
  | some t =>
    if (t : ℚ) < a.hyper.random_timesteps then
      Except.ok (ActOut.random (a.policy.random_act states), a)
    else
      let r := a.policy.act states inference
      Except.ok (ActOut.stochastic r.1 r.2.1 r.2.2, { a with current_log_prob := some r.2.1 })

/-- ppo.py `record_transition` (lines 133-161).  The base-class call on
line 154 touches none of the state modelled here.  `next_states` is cached
first; if a memory is present, the value network is evaluated in inference
mode on `states` and one row-batch is appended (append

modelled from the spec, see `MemRow`). -/
def PPO.record_transition (a : PPOAgent) (states actions rewards next_states : List ℚ)
    (dones : List Bool) : PPOAgent :=
  match a.memory with
  | none => { a with current_next_states := some next_states }
  | some rows =>
    { a with
      current_next_states := some next_states
      memory := some (rows ++
        [{ states := states, actions := actions, rewards := rewards, dones := dones,
           log_prob := a.current_log_prob, values := (a.value.act states true).1 }]) }

/-- ppo.py `post_interaction` (lines 176-189): increment `self._rollout`
and report whether `_update` is invoked (`not self._rollout %
self._rollouts and timestep >= self._learning_starts`).  `_update` itself
is modelled separately (`updateRun`) since its inputs come from the memory
and the networks. -/
def PPO.post_interaction (a : PPOAgent) (timestep : ℕ) : PPOAgent × Bool :=
  let a2 := { a with rollout := a.rollout + 1 }
  if a2.rollout % a.hyper.rollouts = 0 ∧ (a.hyper.learning_starts ≤ (timestep : ℚ)) then
    (a2, true)
  else
    (a2, false)

/-! ## The `_update` learning-epoch loop (ppo.py lines 191-260) -/

/-- Mean of a tensor, `tensor.mean()` (the empty case never arises in the
claims; rational division by zero makes it 0). -/
def tmean (xs : List ℚ) : ℚ := xs.sum / (xs.length : ℚ)

/-- Elementwise `torch.clip(x, lo, hi)` on a scalar. -/
def clipQ (x lo hi : ℚ) : ℚ := min hi (max lo x)

/-- Elementwise `F.mse_loss(input, target)` with the default mean
reduction. -/
def mse_loss (input target : List ℚ) : ℚ :=
  tmean (List.zipWith (fun x y => (x - y) ^ 2) input target)

/-- The KL approximation of ppo.py lines 214-215:
`kl = ((torch.exp(ratio) - 1) - ratio).mean()` with
`ratio = next_log_prob - sampled_log_prob`. -/
def klApprox (fexp : ℚ → ℚ) (next_log_prob sampled_log_prob : List ℚ) : ℚ :=
  tmean (List.zipWith (fun n s => (fexp (n - s) - 1) - (n - s)) next_log_prob sampled_log_prob)

/-- The importance ratio of ppo.py line 228:
`ratio = torch.exp(next_log_prob - sampled_log_prob)`, elementwise. -/
def ratioList (fexp : ℚ → ℚ) (next_log_prob sampled_log_prob : List ℚ) : List ℚ :=
  List.zipWith (fun n s => fexp (n - s)) next_log_prob sampled_log_prob

/-- The clipped-surrogate policy loss of ppo.py lines 228-232. -/
def policy_loss_of (fexp : ℚ → ℚ) (ratio_clip : ℚ)
    (next_log_prob sampled_log_prob sampled_advantages : List ℚ) : ℚ :=
  let ratio := ratioList fexp next_log_prob sampled_log_prob
  let surrogate := List.zipWith (fun a r => a * r) sampled_advantages ratio
  let surrogate_clipped :=
    List.zipWith (fun a r => a * clipQ r (1 - ratio_clip) (1 + ratio_clip)) sampled_advantages ratio
  Neg.neg (tmean (List.zipWith min surrogate surrogate_clipped))

/-- The prediction actually used by the value loss (ppo.py lines 241-242):
clipped to within `±value_clip` of the originally sampled values when
`clip_predicted_values` holds, the raw prediction otherwise. -/
def predicted_for_loss (h : PPOHyper) (sampled_values predicted_values : List ℚ) : List ℚ :=
  if h.clip_predicted_values then
    List.zipWith (fun sv p => sv + clipQ (p - sv) (-h.value_clip) h.value_clip)
      sampled_values predicted_values
  else predicted_values

/-- The value loss of ppo.py line 243:
`value_loss_scale * F.mse_loss(sampled_returns, predicted_values)`. -/
def value_loss_of (h : PPOHyper) (sampled_values sampled_returns predicted_values : List ℚ) : ℚ :=
  h.value_loss_scale * mse_loss sampled_returns (predicted_for_loss h sampled_values predicted_values)

/-- The entropy loss of ppo.py lines 222-225: zero (not computed) unless
`entropy_loss_scale` is truthy. -/
def entropy_loss_of (h : PPOHyper) (entropy_values : List ℚ) : ℚ :=
  if h.entropy_loss_scale ≠ 0 then -h.entropy_loss_scale * tmean entropy_values else 0

/-- The full-window batch drawn by `memory.sample_all` (ppo.py line 201);
only the tensors the epoch loop reads are kept (states and actions feed the
networks, which are abstracted by the per-epoch functions below). -/
structure Batch where
  sampled_log_prob : List ℚ
  sampled_values : List ℚ
  sampled_returns : List ℚ
  sampled_advantages : List ℚ

/-- Optimizer interactions of one epoch, in program order, used to state
that each executed epoch applies one full, separate zero/step cycle per
optimizer. -/
inductive OptEvent where
  | policy_zero_grad
  | policy_step
  | value_zero_grad
  | value_step
deriving DecidableEq, Repr

/-- The optimizer events of one executed epoch (ppo.py lines 234-236 and
245-247). -/
def optCycle : List OptEvent :=
  [OptEvent.policy_zero_grad, OptEvent.policy_step, OptEvent.value_zero_grad, OptEvent.value_step]

/-- Accumulator of the epoch loop: the three cumulative losses (ppo.py
lines 203-205 and 250-253), the number of epochs fully executed, the
optimizer-event trace, and whether the KL early stop fired. -/
structure UpdateAcc where
  cumulative_policy_loss : ℚ
  cumulative_value_loss : ℚ
  cumulative_entropy_loss : ℚ
  epochs_run : ℕ
  trace : List OptEvent
  early_stopped : Bool

/-- The loop body of one executed epoch (ppo.py lines 221-253), given the
per-epoch network outputs: `nlp e` is the `next_log_prob` the policy
returns at epoch `e` (after `e` optimizer-step pairs), `vp e` the value
prediction, `ent e` the policy entropy. -/
def accAdd (fexp : ℚ → ℚ) (h : PPOHyper) (b : Batch) (nlp vp ent : ℕ → List ℚ)
    (acc : UpdateAcc) (e : ℕ) : UpdateAcc :=
  { cumulative_policy_loss := acc.cumulative_policy_loss +
      policy_loss_of fexp h.ratio_clip (nlp e) b.sampled_log_prob b.sampled_advantages
    cumulative_value_loss := acc.cumulative_value_loss +
      value_loss_of h b.sampled_values b.sampled_returns (vp e)
    cumulative_entropy_loss := acc.cumulative_entropy_loss + entropy_loss_of h (ent e)
    epochs_run := acc.epochs_run + 1
    trace := acc.trace ++ optCycle
    early_stopped := acc.early_stopped }

/-- The KL early-stop test of ppo.py lines 212-219: it is evaluated only
when `kl_threshold` is truthy, and breaks the loop when the approximate KL
strictly exceeds the threshold. -/
def klStops (fexp : ℚ → ℚ) (h : PPOHyper) (b : Batch) (nlp : ℕ → List ℚ) (e : ℕ) : Prop :=
  h.kl_threshold ≠ 0 ∧ h.kl_threshold < klApprox fexp (nlp e) b.sampled_log_prob

instance (fexp : ℚ → ℚ) (h : PPOHyper) (b : Batch) (nlp : ℕ → List ℚ) (e : ℕ) :
    Decidable (klStops fexp h b nlp e) := by
  unfold klStops; infer_instance

/-- The learning-epoch loop (ppo.py lines 208-253) over a list of epoch
indices: at each epoch the KL early stop may break out of the loop before
any optimizer step of that epoch, otherwise the body `accAdd` runs. -/
def runEpochsFrom (fexp : ℚ → ℚ) (h : PPOHyper) (b : Batch) (nlp vp ent : ℕ → List ℚ) :
    List ℕ → UpdateAcc → UpdateAcc
  | [], acc => acc
  | e :: rest, acc =>
    if klStops fexp h b nlp e then
      { acc with early_stopped := true }
    else
      runEpochsFrom fexp h b nlp vp ent rest (accAdd fexp h b nlp vp ent acc e)

/-- The initial accumulator (ppo.py lines 203-205). -/
def accInit : UpdateAcc :=
  { cumulative_policy_loss := 0, cumulative_value_loss := 0, cumulative_entropy_loss := 0,
    epochs_run := 0, trace := [], early_stopped := false }

/-- The whole epoch phase of `_update`:
`for epoch in range(self._learning_epochs)`. -/
def updateRun (fexp : ℚ → ℚ) (h : PPOHyper) (b : Batch) (nlp vp ent : ℕ → List ℚ) : UpdateAcc :=
  runEpochsFrom fexp h b nlp vp ent (List.range h.learning_epochs) accInit

/-- The scalars `_update` reports to the writer (ppo.py lines 255-260):
each cumulative loss divided by the configured `self._learning_epochs`,
the entropy scalar only when the entropy scale is truthy. -/
structure UpdateReport where
  loss_policy : ℚ
  loss_value : ℚ
  loss_entropy : Option ℚ

def updateReport (fexp : ℚ → ℚ) (h : PPOHyper) (b : Batch) (nlp vp ent : ℕ → List ℚ) :
    UpdateReport :=
  let acc := updateRun fexp h b nlp vp ent
  { loss_policy := acc.cumulative_policy_loss / (h.learning_epochs : ℚ)
    loss_value := acc.cumulative_value_loss / (h.learning_epochs : ℚ)
    loss_entropy :=
      if h.entropy_loss_scale ≠ 0 then
        some (acc.cumulative_entropy_loss / (h.learning_epochs : ℚ))
      else none }

/-! ## Characterization of the epoch loop -/

section LoopLemmas

variable (fexp : ℚ → ℚ) (h : PPOHyper) (b : Batch) (nlp vp ent : ℕ → List ℚ)

theorem foldl_accAdd_epochs_run (l : List ℕ) (acc : UpdateAcc) :
    (l.foldl (accAdd fexp h b nlp vp ent) acc).epochs_run = acc.epochs_run + l.length := by
  induction l generalizing acc with
  | nil => simp
  | cons e rest ih =>
    simp only [List.foldl_cons, ih, accAdd, List.length_cons]
    omega

theorem foldl_accAdd_policy (l : List ℕ) (acc : UpdateAcc) :
    (l.foldl (accAdd fexp h b nlp vp ent) acc).cumulative_policy_loss =
      acc.cumulative_policy_loss +
        (l.map (fun e => policy_loss_of fexp h.ratio_clip (nlp e) b.sampled_log_prob
          b.sampled_advantages)).sum := by
  induction l generalizing acc with
  | nil => simp
  | cons e rest ih =>
    simp only [List.foldl_cons, ih, accAdd, List.map_cons, List.sum_cons]
    ring

theorem foldl_accAdd_value (l : List ℕ) (acc : UpdateAcc) :
    (l.foldl (accAdd fexp h b nlp vp ent) acc).cumulative_value_loss =
      acc.cumulative_value_loss +
        (l.map (fun e => value_loss_of h b.sampled_values b.sampled_returns (vp e))).sum := by
  induction l generalizing acc with
  | nil => simp
  | cons e rest ih =>
    simp only [List.foldl_cons, ih, accAdd, List.map_cons, List.sum_cons]
    ring

theorem foldl_accAdd_trace (l : List ℕ) (acc : UpdateAcc) :
    (l.foldl (accAdd fexp h b nlp vp ent) acc).trace =
      acc.trace ++ (List.replicate l.length optCycle).flatten := by
  induction l generalizing acc with
  | nil => simp
  | cons e rest ih =>
    simp only [List.foldl_cons, ih, accAdd, List.length_cons, List.replicate_succ,
      List.flatten_cons, List.append_assoc]

theorem foldl_accAdd_early (l : List ℕ) (acc : UpdateAcc) :
    (l.foldl (accAdd fexp h b nlp vp ent) acc).early_stopped = acc.early_stopped := by
  induction l generalizing acc with
  | nil => rfl
  | cons e rest ih => simp only [List.foldl_cons, ih, accAdd]

theorem runEpochsFrom_append_no_stop (l1 l2 : List ℕ) (acc : UpdateAcc)
    (hns : ∀ e ∈ l1, ¬ klStops fexp h b nlp e) :
    runEpochsFrom fexp h b nlp vp ent (l1 ++ l2) acc =
      runEpochsFrom fexp h b nlp vp ent l2 (l1.foldl (accAdd fexp h b nlp vp ent) acc) := by
  induction l1 generalizing acc with
  | nil => simp
  | cons e rest ih =>
    have he : ¬ klStops fexp h b nlp e := hns e (List.mem_cons_self e rest)
    simp only [List.cons_append, runEpochsFrom, if_neg he, List.foldl_cons]
    exact ih _ (fun x hx => hns x (List.mem_cons_of_mem e hx))

theorem runEpochsFrom_no_stop (l : List ℕ) (acc : UpdateAcc)
    (hns : ∀ e ∈ l, ¬ klStops fexp h b nlp e) :
    runEpochsFrom fexp h b nlp vp ent l acc = l.foldl (accAdd fexp h b nlp vp ent) acc := by
  have := runEpochsFrom_append_no_stop fexp h b nlp vp ent l [] acc hns
  simpa [runEpochsFrom] using this

theorem range_split (k n : ℕ) (hk : k < n) :
    ∃ t : List ℕ, List.range n = List.range k ++ k :: t := by
  refine ⟨(List.range (n - (k + 1))).map (fun i => (k + 1) + i), ?_⟩
  have h1 : n = (k + 1) + (n - (k + 1)) := by omega
  conv_lhs => rw [h1]
  rw [List.range_add, List.range_succ, List.append_assoc, List.singleton_append]

/-- If the KL early stop would fire for the first time at epoch `k`
(with `k` below the configured epoch count), the loop runs exactly the
first `k` epochs and then breaks. -/
theorem updateRun_stops_at (k : ℕ) (hk : k < h.learning_epochs)
    (hstop : klStops fexp h b nlp k)
    (hmin : ∀ j, j < k → ¬ klStops fexp h b nlp j) :
    updateRun fexp h b nlp vp ent =
      { (List.range k).foldl (accAdd fexp h b nlp vp ent) accInit with early_stopped := true } := by
  obtain ⟨t, ht⟩ := range_split k h.learning_epochs hk
  unfold updateRun
  rw [ht, runEpochsFrom_append_no_stop fexp h b nlp vp ent _ _ _
    (fun e he => hmin e (List.mem_range.mp he))]
  simp only [runEpochsFrom, if_pos hstop]

/-- If the KL early stop never fires below the configured epoch count, the
loop runs all `learning_epochs` epochs. -/
theorem updateRun_no_stop
    (hns : ∀ e, e < h.learning_epochs → ¬ klStops fexp h b nlp e) :
    updateRun fexp h b nlp vp ent =
      (List.range h.learning_epochs).foldl (accAdd fexp h b nlp vp ent) accInit := by
  unfold updateRun
  exact runEpochsFrom_no_stop fexp h b nlp vp ent _ _
    (fun e he => hns e (List.mem_range.mp he))

end LoopLemmas

/-! ## Concrete instances used by witnesses and counterexamples -/

/-- A concrete stand-in for `torch.exp` (its second-order Taylor
polynomial); the theorems below are parametric in the exponential, this
instance only drives concrete evaluations. -/
def fexpQ : ℚ → ℚ := fun q => 1 + q + q * q

/-- Concrete hyperparameters: two learning epochs, KL threshold 1 (early
stop enabled), no entropy bonus, no value clipping. -/
def hypKl : PPOHyper :=
  { learning_epochs := 2, rollouts := 16, ratio_clip := 1/5, value_clip := 1/5,
    clip_predicted_values := false, value_loss_scale := 1, entropy_loss_scale := 0,
    kl_threshold := 1, random_timesteps := 1000, learning_starts := 1000,
    discount_factor := 99/100, lambda_coefficient := 99/100,
    policy_learning_rate := 1/1000, value_learning_rate := 1/1000 }

/-- A one-sample batch: log-prob 0, value 0, return 1, advantage 1. -/
def batchEx : Batch :=
  { sampled_log_prob := [0], sampled_values := [0], sampled_returns := [1],
    sampled_advantages := [1] }

/-- Per-epoch policy log-probabilities: unchanged at epoch 0, drifted far
at epoch 1 so that the approximate KL exceeds the threshold there. -/
def nlpEx : ℕ → List ℚ := fun e => if e = 0 then [0] else [10]

/-- Per-epoch value predictions (constant 0). -/
def vpEx : ℕ → List ℚ := fun _ => [0]

/-- Per-epoch policy entropies (constant 0). -/
def entEx : ℕ → List ℚ := fun _ => [0]

/-- A concrete network: `act` echoes the states with log-prob 0, and
`random_act` shifts every entry by one. -/
def netEx : NetModel :=
  { act := fun s _ => (s, s.map (fun _ => (0 : ℚ)), s),
    random_act := fun s => s.map (fun x => x + 1) }

/-- The hyperparameters of the documented defaults, written out. -/
def hypDef : PPOHyper :=
  { learning_epochs := 8, rollouts := 16, ratio_clip := 1/5, value_clip := 1/5,
    clip_predicted_values := false, value_loss_scale := 1, entropy_loss_scale := 0,
    kl_threshold := 0, random_timesteps := 1000, learning_starts := 1000,
    discount_factor := 99/100, lambda_coefficient := 99/100,
    policy_learning_rate := 1/1000, value_learning_rate := 1/1000 }

/-- A concrete freshly-constructed-looking agent with the default
hyperparameters and an empty memory. -/
def agentEx : PPOAgent :=
  { cfg := PPO_DEFAULT_CONFIG, hyper := hypDef, policy := netEx, value := netEx,
    rollout := 0, current_log_prob := none, current_next_states := none,
    memory := some [] }

/-- A second hyperparameter instance with value clipping enabled. -/
def hypClip : PPOHyper := { hypKl with clip_predicted_values := true }

/-! ## Claims -/

/-- C1: the claim states that the reported mean value loss is the
accumulated loss divided by the number of epochs actually executed
(accounting for KL early stop).  The code divides by the configured
`self._learning_epochs` instead: at this input the KL early stop fires at
the second epoch, exactly one epoch ran and accumulated value loss 1, yet
the reported value loss is 1/2 (division by `learning_epochs = 2`), not
1/1 as the claim requires. -/
theorem C1_reported_loss_divided_by_configured_epochs :
    (updateRun fexpQ hypKl batchEx nlpEx vpEx entEx).epochs_run = 1 ∧
    (updateRun fexpQ hypKl batchEx nlpEx vpEx entEx).cumulative_value_loss = 1 ∧
    hypKl.learning_epochs = 2 ∧
    (updateReport fexpQ hypKl batchEx nlpEx vpEx entEx).loss_value = 1 / 2 ∧
    (1 : ℚ) / 2 ≠ 1 / 1 := by
  refine ⟨?_, ?_, rfl, ?_, by norm_num⟩ <;>
    norm_num [updateReport, updateRun, runEpochsFrom, klStops, klApprox, accAdd, accInit,
      hypKl, batchEx, nlpEx, vpEx, entEx, fexpQ, tmean, mse_loss, value_loss_of,
      predicted_for_loss, List.range_succ]

/-- C2: KL early stopping is active iff `kl_threshold` is nonzero; the
per-epoch KL estimate is `klApprox` (the mean of `(exp(r) - 1) - r` over
`r = next_log_prob - sampled_log_prob`, exactly the test in `klStops`),
and if the stop first fires at epoch index `k`, the loop breaks before any
optimizer step of that epoch, so exactly `k` full epochs of policy and
value optimizer zero/step cycles were applied; with a zero threshold all
configured epochs run. -/
theorem C2_kl_early_stop_truncates_epochs (fexp : ℚ → ℚ) (h : PPOHyper) (b : Batch)
    (nlp vp ent : ℕ → List ℚ) :
    (h.kl_threshold = 0 →
      (updateRun fexp h b nlp vp ent).epochs_run = h.learning_epochs ∧
      (updateRun fexp h b nlp vp ent).early_stopped = false)
  ∧ (∀ k, k < h.learning_epochs →
      h.kl_threshold ≠ 0 →
      h.kl_threshold < klApprox fexp (nlp k) b.sampled_log_prob →
      (∀ j, j < k → ¬ h.kl_threshold < klApprox fexp (nlp j) b.sampled_log_prob) →
        (updateRun fexp h b nlp vp ent).epochs_run = k ∧
        (updateRun fexp h b nlp vp ent).early_stopped = true ∧
        (updateRun fexp h b nlp vp ent).trace = (List.replicate k optCycle).flatten) := by
  constructor
  · intro hz
    have hns : ∀ e, e < h.learning_epochs → ¬ klStops fexp h b nlp e :=
      fun e _ hk => hk.1 hz
    rw [updateRun_no_stop fexp h b nlp vp ent hns]
    refine ⟨?_, ?_⟩
    · simp [foldl_accAdd_epochs_run, accInit]
    · simp [foldl_accAdd_early, accInit]
  · intro k hk hne hgt hmin
    have hstop : klStops fexp h b nlp k := ⟨hne, hgt⟩
    have hmin2 : ∀ j, j < k → ¬ klStops fexp h b nlp j :=
      fun j hj hkj => hmin j hj hkj.2
    rw [updateRun_stops_at fexp h b nlp vp ent k hk hstop hmin2]
    refine ⟨?_, rfl, ?_⟩
    · simp [foldl_accAdd_epochs_run, accInit]
    · simp [foldl_accAdd_trace, accInit]

/-- Witness for C2 at a concrete input where the stop fires at epoch 1. -/
theorem C2_witness :
    (1 < hypKl.learning_epochs ∧ hypKl.kl_threshold ≠ 0 ∧
      hypKl.kl_threshold < klApprox fexpQ (nlpEx 1) batchEx.sampled_log_prob) ∧
    ((updateRun fexpQ hypKl batchEx nlpEx vpEx entEx).epochs_run = 1 ∧
      (updateRun fexpQ hypKl batchEx nlpEx vpEx entEx).early_stopped = true ∧
      (updateRun fexpQ hypKl batchEx nlpEx vpEx entEx).trace =
        (List.replicate 1 optCycle).flatten) :=
  ⟨⟨by norm_num [hypKl], by norm_num [hypKl],
    by norm_num [hypKl, klApprox, fexpQ, nlpEx, batchEx, tmean]⟩,
   (C2_kl_early_stop_truncates_epochs fexpQ hypKl batchEx nlpEx vpEx entEx).2 1
     (by norm_num [hypKl]) (by norm_num [hypKl])
     (by norm_num [hypKl, klApprox, fexpQ, nlpEx, batchEx, tmean])
     (by
       intro j hj
       have hj0 : j = 0 := by omega
       subst hj0
       norm_num [hypKl, klApprox, fexpQ, nlpEx, batchEx, tmean])⟩

/-- C3: `post_interaction` increments the rollout counter by exactly one,
invokes `_update` iff the incremented counter is an exact multiple of the
configured `rollouts` and the timestep has reached `learning_starts`, and
changes no other agent state.  (`rollouts` must be positive: Python `%`
raises on zero.) -/
theorem C3_post_interaction_cadence (a : PPOAgent) (timestep : ℕ)
    (hr : 0 < a.hyper.rollouts) :
    (PPO.post_interaction a timestep).1 = { a with rollout := a.rollout + 1 } ∧
    ((PPO.post_interaction a timestep).2 = true ↔
      ((a.rollout + 1) % a.hyper.rollouts = 0 ∧ a.hyper.learning_starts ≤ (timestep : ℚ))) := by
  by_cases hcond : (a.rollout + 1) % a.hyper.rollouts = 0 ∧ a.hyper.learning_starts ≤ (timestep : ℚ)
  · refine ⟨?_, ?_⟩ <;> simp [PPO.post_interaction, hcond]
  · refine ⟨?_, ?_⟩ <;> simp [PPO.post_interaction, hcond]

/-- Witness for C3: at timestep 2000 with a fresh default agent, the first
call does not trigger an update (counter 1 is not a multiple of 16). -/
theorem C3_witness :
    0 < agentEx.hyper.rollouts ∧
    ((PPO.post_interaction agentEx 2000).1 = { agentEx with rollout := agentEx.rollout + 1 } ∧
      ((PPO.post_interaction agentEx 2000).2 = true ↔
        ((agentEx.rollout + 1) % agentEx.hyper.rollouts = 0 ∧
          agentEx.hyper.learning_starts ≤ ((2000 : ℕ) : ℚ)))) :=
  ⟨by norm_num [agentEx, hypDef], C3_post_interaction_cadence agentEx 2000 (by norm_num [agentEx, hypDef])⟩

/-- C4: in every executed learning epoch the policy loss added to the
cumulative loss is the clipped surrogate
`-mean(min(advantage*ratio, advantage*clip(ratio, 1-e, 1+e)))` with
`ratio = exp(next_log_prob - sampled_log_prob)`; and at the clipping
boundary the `min` selects `advantage*(1+ratio_clip)` whenever the
advantage is positive and the ratio exceeds `1+ratio_clip` (symmetrically
`advantage*(1-ratio_clip)` below the lower bound for negative
advantage). -/
theorem C4_clipped_surrogate_policy_loss (fexp : ℚ → ℚ) (h : PPOHyper) (b : Batch)
    (nlp vp ent : ℕ → List ℚ) (acc : UpdateAcc) (e : ℕ) (a r : ℚ)
    (hrc : 0 ≤ h.ratio_clip) :
    ((accAdd fexp h b nlp vp ent acc e).cumulative_policy_loss =
      acc.cumulative_policy_loss +
        policy_loss_of fexp h.ratio_clip (nlp e) b.sampled_log_prob b.sampled_advantages)
  ∧ (policy_loss_of fexp h.ratio_clip (nlp e) b.sampled_log_prob b.sampled_advantages =
      Neg.neg (tmean (List.zipWith min
        (List.zipWith (fun a r => a * r) b.sampled_advantages
          (ratioList fexp (nlp e) b.sampled_log_prob))
        (List.zipWith (fun a r => a * clipQ r (1 - h.ratio_clip) (1 + h.ratio_clip))
          b.sampled_advantages (ratioList fexp (nlp e) b.sampled_log_prob)))))
  ∧ (0 < a → 1 + h.ratio_clip < r →
      min (a * r) (a * clipQ r (1 - h.ratio_clip) (1 + h.ratio_clip)) = a * (1 + h.ratio_clip))
  ∧ (a < 0 → r < 1 - h.ratio_clip →
      min (a * r) (a * clipQ r (1 - h.ratio_clip) (1 + h.ratio_clip)) = a * (1 - h.ratio_clip)) := by
  refine ⟨rfl, rfl, ?_, ?_⟩
  · intro ha hrr
    have hclip : clipQ r (1 - h.ratio_clip) (1 + h.ratio_clip) = 1 + h.ratio_clip := by
      unfold clipQ
      rw [max_eq_right (by linarith), min_eq_left (by linarith)]
    rw [hclip, min_eq_right (by nlinarith)]
  · intro ha hrr
    have hclip : clipQ r (1 - h.ratio_clip) (1 + h.ratio_clip) = 1 - h.ratio_clip := by
      unfold clipQ
      rw [max_eq_left (by linarith), min_eq_right (by linarith)]
    rw [hclip, min_eq_right (by nlinarith)]

/-- Witness for C4: ratio_clip 1/5, advantage 1 and ratio 2 select
`1*(1+1/5)`; advantage -1 and ratio 1/2 select `-1*(1-1/5)`. -/
theorem C4_witness :
    (0 ≤ hypKl.ratio_clip ∧ (0 : ℚ) < 1 ∧ 1 + hypKl.ratio_clip < 2) ∧
    ((accAdd fexpQ hypKl batchEx nlpEx vpEx entEx accInit 0).cumulative_policy_loss =
      accInit.cumulative_policy_loss +
        policy_loss_of fexpQ hypKl.ratio_clip (nlpEx 0) batchEx.sampled_log_prob
          batchEx.sampled_advantages) ∧
    (min ((1 : ℚ) * 2) (1 * clipQ 2 (1 - hypKl.ratio_clip) (1 + hypKl.ratio_clip)) =
      1 * (1 + hypKl.ratio_clip)) :=
  ⟨⟨by norm_num [hypKl], by norm_num, by norm_num [hypKl]⟩,
   (C4_clipped_surrogate_policy_loss fexpQ hypKl batchEx nlpEx vpEx entEx accInit 0 1 2
      (by norm_num [hypKl])).1,
   (C4_clipped_surrogate_policy_loss fexpQ hypKl batchEx nlpEx vpEx entEx accInit 0 1 2
      (by norm_num [hypKl])).2.2.1 (by norm_num) (by norm_num [hypKl])⟩

/-- C5: with an integer timestep below `random_timesteps`, `act` returns
`policy.random_act(states)` and leaves the agent untouched (the trained
policy is not consulted); at or above the threshold it returns the triple
from `policy.act(states, inference)` and caches the log-probability; with
an undefined (`None`) timestep the numeric comparison is a `TypeError`,
modelled as the error result. -/
theorem C5_act_random_exploration_gate (a : PPOAgent) (states : List ℚ) (inference : Bool)
    (t : ℤ) :
    (((t : ℚ) < a.hyper.random_timesteps →
      PPO.act a states inference (some t) =
        Except.ok (ActOut.random (a.policy.random_act states), a)))
  ∧ ((a.hyper.random_timesteps ≤ (t : ℚ) →
      PPO.act a states inference (some t) =
        Except.ok (ActOut.stochastic (a.policy.act states inference).1
            (a.policy.act states inference).2.1 (a.policy.act states inference).2.2,
          { a with current_log_prob := some (a.policy.act states inference).2.1 })))
  ∧ (∃ msg, PPO.act a states inference none = Except.error msg) := by
  refine ⟨fun hlt => ?_, fun hge => ?_, ⟨_, rfl⟩⟩
  · simp [PPO.act, if_pos hlt]
  · simp [PPO.act, if_neg (not_lt.mpr hge)]

/-- Witness for C5: timestep 3 is below the default threshold 1000, so the
fresh default agent acts randomly; timestep 5000 is above, so it acts
stochastically and caches the log-probability. -/
theorem C5_witness :
    (((3 : ℤ) : ℚ) < agentEx.hyper.random_timesteps ∧
      PPO.act agentEx [7] false (some 3) =
        Except.ok (ActOut.random (agentEx.policy.random_act [7]), agentEx)) ∧
    (agentEx.hyper.random_timesteps ≤ ((5000 : ℤ) : ℚ) ∧
      PPO.act agentEx [7] false (some 5000) =
        Except.ok (ActOut.stochastic (agentEx.policy.act [7] false).1
            (agentEx.policy.act [7] false).2.1 (agentEx.policy.act [7] false).2.2,
          { agentEx with current_log_prob := some (agentEx.policy.act [7] false).2.1 })) :=
  ⟨⟨by norm_num [agentEx, hypDef],
    (C5_act_random_exploration_gate agentEx [7] false 3).1 (by norm_num [agentEx, hypDef])⟩,
   ⟨by norm_num [agentEx, hypDef],
    (C5_act_random_exploration_gate agentEx [7] false 5000).2.1 (by norm_num [agentEx, hypDef])⟩⟩

/-- C6: `record_transition` caches `next_states`, evaluates the value
network in inference mode on `states` (not on `next_states`), appends one
synchronized row with fields states, actions, rewards, dones, the cached
log-probability and the just-computed values, and changes nothing else
(the function returns `None` in Python; here, the updated agent is the
whole effect). -/
theorem C6_record_transition_appends_row (a : PPOAgent)
    (states actions rewards next_states : List ℚ) (dones : List Bool) (rows : List MemRow)
    (hm : a.memory = some rows) :
    PPO.record_transition a states actions rewards next_states dones =
      { a with
        current_next_states := some next_states
        memory := some (rows ++
          [{ states := states, actions := actions, rewards := rewards, dones := dones,
             log_prob := a.current_log_prob, values := (a.value.act states true).1 }]) } := by
  unfold PPO.record_transition
  rw [hm]

/-- Witness for C6 on the fresh default agent with distinct states and
next-states. -/
theorem C6_witness :
    agentEx.memory = some [] ∧
    PPO.record_transition agentEx [1] [2] [3] [4] [true] =
      { agentEx with
        current_next_states := some [4]
        memory := some ([] ++
          [{ states := [1], actions := [2], rewards := [3], dones := [true],
             log_prob := agentEx.current_log_prob,
             values := (agentEx.value.act [1] true).1 }]) } :=
  ⟨rfl, C6_record_transition_appends_row agentEx [1] [2] [3] [4] [true] [] rfl⟩

/-- C7: in every executed epoch the value loss added to the cumulative
loss is `value_loss_scale * mse_loss(returns, predicted)`, where the
prediction is the raw network output unless `clip_predicted_values` is
set, in which case it is `sampled + clip(predicted - sampled, -value_clip,
value_clip)`, which always lies within `±value_clip` of the sampled value;
and the value optimizer runs its own zero/step cycle, separate from and
after the cycle of the policy optimizer, in every executed epoch. -/
theorem C7_value_loss_and_clipping (fexp : ℚ → ℚ) (h : PPOHyper) (b : Batch)
    (nlp vp ent : ℕ → List ℚ) (acc : UpdateAcc) (e : ℕ) (sv p : ℚ)
    (hvc : 0 ≤ h.value_clip) :
    ((accAdd fexp h b nlp vp ent acc e).cumulative_value_loss =
      acc.cumulative_value_loss + value_loss_of h b.sampled_values b.sampled_returns (vp e))
  ∧ (value_loss_of h b.sampled_values b.sampled_returns (vp e) =
      h.value_loss_scale *
        mse_loss b.sampled_returns (predicted_for_loss h b.sampled_values (vp e)))
  ∧ (h.clip_predicted_values = false → predicted_for_loss h b.sampled_values (vp e) = vp e)
  ∧ (h.clip_predicted_values = true →
      predicted_for_loss h b.sampled_values (vp e) =
        List.zipWith (fun sv p => sv + clipQ (p - sv) (-h.value_clip) h.value_clip)
          b.sampled_values (vp e))
  ∧ |sv + clipQ (p - sv) (-h.value_clip) h.value_clip - sv| ≤ h.value_clip
  ∧ ((accAdd fexp h b nlp vp ent acc e).trace = acc.trace ++
      [OptEvent.policy_zero_grad, OptEvent.policy_step,
       OptEvent.value_zero_grad, OptEvent.value_step]) := by
  refine ⟨rfl, rfl, ?_, ?_, ?_, rfl⟩
  · intro hfl; simp [predicted_for_loss, hfl]
  · intro htr; simp [predicted_for_loss, htr]
  · have h1 : sv + clipQ (p - sv) (-h.value_clip) h.value_clip - sv =
        clipQ (p - sv) (-h.value_clip) h.value_clip := by ring
    rw [h1]
    unfold clipQ
    rw [abs_le]
    constructor
    · exact le_min (by linarith) (le_max_left _ _)
    · exact min_le_left _ _

/-- Witness for C7 with value clipping enabled: sampled value 0 and raw
prediction 1 are clipped to within 1/5. -/
theorem C7_witness :
    (0 ≤ hypClip.value_clip ∧ hypClip.clip_predicted_values = true) ∧
    ((accAdd fexpQ hypClip batchEx nlpEx vpEx entEx accInit 0).cumulative_value_loss =
      accInit.cumulative_value_loss +
        value_loss_of hypClip batchEx.sampled_values batchEx.sampled_returns (vpEx 0)) ∧
    (predicted_for_loss hypClip batchEx.sampled_values (vpEx 0) =
      List.zipWith (fun sv p => sv + clipQ (p - sv) (-hypClip.value_clip) hypClip.value_clip)
        batchEx.sampled_values (vpEx 0)) ∧
    |(0 : ℚ) + clipQ (1 - 0) (-hypClip.value_clip) hypClip.value_clip - 0| ≤ hypClip.value_clip :=
  ⟨⟨by norm_num [hypClip, hypKl], rfl⟩,
   (C7_value_loss_and_clipping fexpQ hypClip batchEx nlpEx vpEx entEx accInit 0 0 1
      (by norm_num [hypClip, hypKl])).1,
   (C7_value_loss_and_clipping fexpQ hypClip batchEx nlpEx vpEx entEx accInit 0 0 1
      (by norm_num [hypClip, hypKl])).2.2.2.1 rfl,
   (C7_value_loss_and_clipping fexpQ hypClip batchEx nlpEx vpEx entEx accInit 0 0 1
      (by norm_num [hypClip, hypKl])).2.2.2.2.1⟩

/-- C8: the random-exploration path of `act` does not write the cached
log-probability (the returned agent is the input agent, unchanged), so a
following `record_transition` appends whatever `_current_log_prob` already
held — the value cached by the last stochastic `act`, or the
initial `None` if no stochastic action was ever taken (every successfully
constructed agent starts with `current_log_prob = none`). -/
theorem C8_random_path_leaves_stale_log_prob (a : PPOAgent)
    (states s2 actions rewards ns : List ℚ) (dones : List Bool) (inference : Bool) (t : ℤ)
    (rows : List MemRow) (ht : (t : ℚ) < a.hyper.random_timesteps)
    (hm : a.memory = some rows) :
    (PPO.act a states inference (some t) =
      Except.ok (ActOut.random (a.policy.random_act states), a))
  ∧ ((PPO.record_transition a s2 actions rewards ns dones).memory =
      some (rows ++
        [{ states := s2, actions := actions, rewards := rewards, dones := dones,
           log_prob := a.current_log_prob, values := (a.value.act s2 true).1 }]))
  ∧ (∀ (p : ProcState) (nets : List (String × NetModel)) (cfg : Dict) (ag : PPOAgent),
      (PPO.init p nets cfg).2.2 = Except.ok ag → ag.current_log_prob = none) := by
  refine ⟨by simp [PPO.act, if_pos ht], by unfold PPO.record_transition; rw [hm], ?_⟩
  intro p nets cfg ag hok
  unfold PPO.init at hok
  rcases hl1 : lookupA nets "policy" with _ | pol
  · rw [hl1] at hok; simp at hok
  · rw [hl1] at hok
    rcases hl2 : lookupA nets "value" with _ | vl
    · rw [hl2] at hok; simp at hok
    · rw [hl2] at hok
      simp only [Except.ok.injEq] at hok
      rw [← hok]
      rfl

/-- Witness for C8: the fresh default agent records a random-exploration
transition with `log_prob = none`. -/
theorem C8_witness :
    (((3 : ℤ) : ℚ) < agentEx.hyper.random_timesteps ∧ agentEx.memory = some []) ∧
    ((PPO.act agentEx [7] false (some 3) =
        Except.ok (ActOut.random (agentEx.policy.random_act [7]), agentEx)) ∧
      ((PPO.record_transition agentEx [7] [8] [9] [10] [false]).memory =
        some ([] ++
          [{ states := [7], actions := [8], rewards := [9], dones := [false],
             log_prob := agentEx.current_log_prob,
             values := (agentEx.value.act [7] true).1 }]))) :=
  ⟨⟨by norm_num [agentEx, hypDef], rfl⟩,
   (C8_random_path_leaves_stale_log_prob agentEx [7] [7] [8] [9] [10] [false] false 3 []
      (by norm_num [agentEx, hypDef]) rfl).1,
   (C8_random_path_leaves_stale_log_prob agentEx [7] [7] [8] [9] [10] [false] false 3 []
      (by norm_num [agentEx, hypDef]) rfl).2.1⟩

theorem dictGet_dictSet_self (d : Dict) (k : String) (v : CfgVal) :
    dictGet (dictSet d k v) k = some v := by
  induction d with
  | nil => simp [dictSet, dictGet]
  | cons kv rest ih =>
    obtain ⟨k0, v0⟩ := kv
    by_cases hk : k0 = k
    · simp [dictSet, dictGet, hk]
    · simp [dictSet, dictGet, hk, ih]

/-- C9: construction updates the module-level default dictionary in place
with the overrides of the caller and hands that same (mutated) dictionary to
the agent; a second agent constructed afterwards with an empty override
dictionary therefore observes the override from the first construction as its effective
default. -/
theorem C9_construction_mutates_global_defaults (p : ProcState)
    (nets : List (String × NetModel)) (k : String) (v : CfgVal) (pol vl : NetModel)
    (hp : lookupA nets "policy" = some pol) (hv : lookupA nets "value" = some vl) :
    ((PPO.init p nets [(k, v)]).1.ppo_default_config = dictSet p.ppo_default_config k v)
  ∧ (∃ ag1, (PPO.init p nets [(k, v)]).2.2 = Except.ok ag1 ∧
      ag1.cfg = dictSet p.ppo_default_config k v)
  ∧ (∃ ag2, (PPO.init (PPO.init p nets [(k, v)]).1 nets []).2.2 = Except.ok ag2 ∧
      ag2.cfg = dictSet p.ppo_default_config k v ∧
      dictGet ag2.cfg k = some v) := by
  have h1 : PPO.init p nets [(k, v)] =
      (⟨dictSet p.ppo_default_config k v⟩, initEffects,
       Except.ok (mkAgent (dictSet p.ppo_default_config k v) pol vl)) := by
    simp [PPO.init, hp, hv]
    exact ⟨rfl, rfl⟩
  have h2 : PPO.init (⟨dictSet p.ppo_default_config k v⟩ : ProcState) nets [] =
      (⟨dictSet p.ppo_default_config k v⟩, initEffects,
       Except.ok (mkAgent (dictSet p.ppo_default_config k v) pol vl)) := by
    simp [PPO.init, hp, hv]
    exact ⟨rfl, rfl⟩
  refine ⟨by rw [h1], ⟨mkAgent (dictSet p.ppo_default_config k v) pol vl, by rw [h1], rfl⟩,
    ⟨mkAgent (dictSet p.ppo_default_config k v) pol vl, ?_, rfl, dictGet_dictSet_self _ _ _⟩⟩
  rw [h1, h2]

/-- Witness for C9: after one construction overriding `rollouts` to 5, a
second construction with an empty config sees `rollouts = 5`, not the
documented default 16. -/
theorem C9_witness :
    (lookupA [("policy", netEx), ("value", netEx)] "policy" = some netEx ∧
      lookupA [("policy", netEx), ("value", netEx)] "value" = some netEx ∧
      dictGet PPO_DEFAULT_CONFIG "rollouts" = some (CfgVal.num 16) ∧
      CfgVal.num 5 ≠ CfgVal.num 16) ∧
    (∃ ag2, (PPO.init (PPO.init ⟨PPO_DEFAULT_CONFIG⟩ [("policy", netEx), ("value", netEx)]
          [("rollouts", CfgVal.num 5)]).1
        [("policy", netEx), ("value", netEx)] []).2.2 = Except.ok ag2 ∧
      ag2.cfg = dictSet PPO_DEFAULT_CONFIG "rollouts" (CfgVal.num 5) ∧
      dictGet ag2.cfg "rollouts" = some (CfgVal.num 5)) :=
  ⟨⟨by simp [lookupA], by simp [lookupA], by simp [dictGet, PPO_DEFAULT_CONFIG],
    by simp⟩,
   (C9_construction_mutates_global_defaults ⟨PPO_DEFAULT_CONFIG⟩
      [("policy", netEx), ("value", netEx)] "rollouts" (CfgVal.num 5) netEx netEx
      (by simp [lookupA]) (by simp [lookupA])).2.2⟩

/-- C10: constructing with a networks mapping lacking the `"policy"` key
or the `"value"` key raises a `KeyError` before any optimizer or buffer
tensor is created (the effect trace is empty); with both keys present the
construction performs its effects and succeeds. -/
theorem C10_missing_network_binding_fails_fast (p : ProcState)
    (nets : List (String × NetModel)) (cfg : Dict) :
    ((lookupA nets "policy" = none ∨ lookupA nets "value" = none) →
      ∃ msg, PPO.init p nets cfg =
        (⟨dictUpdate p.ppo_default_config cfg⟩, [], Except.error msg))
  ∧ (∀ pol vl, lookupA nets "policy" = some pol → lookupA nets "value" = some vl →
      PPO.init p nets cfg =
        (⟨dictUpdate p.ppo_default_config cfg⟩, initEffects,
         Except.ok (mkAgent (dictUpdate p.ppo_default_config cfg) pol vl))) := by
  constructor
  · rintro (hnp | hnv)
    · exact ⟨policyKeyError, by simp [PPO.init, hnp]⟩
    · rcases hl1 : lookupA nets "policy" with _ | pol
      · exact ⟨policyKeyError, by simp [PPO.init, hl1]⟩
      · exact ⟨valueKeyError, by simp [PPO.init, hl1, hnv]⟩
  · intro pol vl hp hv
    simp [PPO.init, hp, hv]

/-- Witness for C10: a mapping holding only a value network fails with an
empty effect trace; the full mapping succeeds. -/
theorem C10_witness :
    (lookupA [("value", netEx)] "policy" = none ∧
      (∃ msg, PPO.init ⟨PPO_DEFAULT_CONFIG⟩ [("value", netEx)] [] =
        (⟨dictUpdate PPO_DEFAULT_CONFIG []⟩, [], Except.error msg))) ∧
    (lookupA [("policy", netEx), ("value", netEx)] "policy" = some netEx ∧
      PPO.init ⟨PPO_DEFAULT_CONFIG⟩ [("policy", netEx), ("value", netEx)] [] =
        (⟨dictUpdate PPO_DEFAULT_CONFIG []⟩, initEffects,
         Except.ok (mkAgent (dictUpdate PPO_DEFAULT_CONFIG []) netEx netEx))) :=
  ⟨⟨by simp [lookupA],
    (C10_missing_network_binding_fails_fast ⟨PPO_DEFAULT_CONFIG⟩ [("value", netEx)] []).1
      (Or.inl (by simp [lookupA]))⟩,
   ⟨by simp [lookupA],
    (C10_missing_network_binding_fails_fast ⟨PPO_DEFAULT_CONFIG⟩
        [("policy", netEx), ("value", netEx)] []).2 netEx netEx
      (by simp [lookupA]) (by simp [lookupA])⟩⟩

end Skrl
